import Mathlib

/-!
Shallow embedding of `src/contexts/AuthContext.tsx` (bloom-harvest): an
authentication state bridge mirroring a provider event stream into local
state (session, user, loading flag), with sign-up / sign-in / sign-out,
order fetching and a stubbed order creation.
-/

namespace AuthBridge

/-- Identity record associated with a session (provider-owned, opaque here). -/
structure User where
  id : String
deriving DecidableEq, Repr

/-- Provider-issued credential bundle.  In the provider SDK the `user` field
of a session is always present (non-null), which the embedding reflects. -/
structure Session where
  accessToken : String
  user : User
deriving DecidableEq, Repr

/-- A transient notification shown to the user.  `variant` is `some
"destructive"` for error notifications and `none` otherwise, as in the
source calls to `toast`. -/
structure Toast where
  title : String
  description : String
  variant : Option String
deriving DecidableEq, Repr

/-- Error value reported by the provider; only its message is consumed. -/
structure ProviderError where
  message : String
deriving DecidableEq, Repr

/-- Local state of the bridge: the mirrored session and user, the loading
flag, the list of notifications shown so far (in order), and the set of
keys present in browser local storage (as a list of keys). -/
structure AuthState where
  session : Option Session
  user : Option User
  isLoading : Bool
  toasts : List Toast
  storage : List String
deriving DecidableEq, Repr

/-- Effect of `localStorage.removeItem key`: the key is no longer present. -/
def removeItem (storage : List String) (key : String) : List String :=
  storage.filter (fun k => k ≠ key)

/-- Event names delivered by `onAuthStateChange`. -/
inductive AuthChangeEvent
  | signedIn
  | signedOut
  | tokenRefreshed
  | userUpdated
  | passwordRecovery
deriving DecidableEq, Repr

/-- One event of the auth stream: the event name and the new session. -/
structure StreamEvent where
  event : AuthChangeEvent
  session : Option Session
deriving DecidableEq, Repr

def signedInToast : Toast :=
  { title := "Signed in successfully"
    description := "Welcome back to AgroConnect!"
    variant := none }

def signedOutToast : Toast :=
  { title := "Signed out successfully"
    description := "You have been signed out."
    variant := none }

/-- The `onAuthStateChange` handler (source lines 29-58): overwrite the
mirrored session and user from the event, on SIGNED_IN show the welcome
notification, on SIGNED_OUT show the signed-out notification only when the
event session is null and the previously captured `user` is non-null, then
remove the "cart" and "favorites" storage keys, and finally clear the
loading flag. -/
def handleAuthEvent (st : AuthState) (ev : StreamEvent) : AuthState :=
  let toasts1 :=
    if ev.event = .signedIn then st.toasts ++ [signedInToast] else st.toasts
  let toasts2 :=
    if ev.event = .signedOut ∧ ev.session = none ∧ st.user ≠ none then
      toasts1 ++ [signedOutToast]
    else toasts1
  let storage1 :=
    if ev.event = .signedOut then
      removeItem (removeItem st.storage "cart") "favorites"
    else st.storage
  { session := ev.session
    user := ev.session.map Session.user
    isLoading := false
    toasts := toasts2
    storage := storage1 }

/-- The `getSession().then` handler (source lines 62-66): mirror the fetched
session and its user and clear the loading flag. -/
def applyGetSession (st : AuthState) (s : Option Session) : AuthState :=
  { st with
    session := s
    user := s.map Session.user
    isLoading := false }

/-- Process a sequence of stream events in order. -/
def processEvents (st : AuthState) (evs : List StreamEvent) : AuthState :=
  evs.foldl handleAuthEvent st

/-- The mirrored user is non-null exactly when the mirrored session is. -/
def userSessionAgree (st : AuthState) : Prop :=
  st.user.isSome ↔ st.session.isSome

theorem userSessionAgree_handleAuthEvent (st : AuthState) (ev : StreamEvent) :
    userSessionAgree (handleAuthEvent st ev) := by
  cases h : ev.session <;> simp [userSessionAgree, handleAuthEvent, h]

theorem userSessionAgree_processEvents (st : AuthState) (ev : StreamEvent)
    (evs : List StreamEvent) :
    userSessionAgree (processEvents st (ev :: evs)) := by
  induction evs generalizing st ev with
  | nil => exact userSessionAgree_handleAuthEvent st ev
  | cons e rest ih =>
      simpa [processEvents, List.foldl] using ih (handleAuthEvent st ev) e

/-- C1: after the initial session fetch, and after each event of any
sequence of auth stream events, the mirrored user is non-null iff the
mirrored session is non-null. -/
theorem user_nonnull_iff_session_nonnull
    (st : AuthState) (s : Option Session) (ev : StreamEvent)
    (evs : List StreamEvent) :
    userSessionAgree (applyGetSession st s) ∧
    userSessionAgree (processEvents st (ev :: evs)) := by
  constructor
  · cases h : s <;> simp [userSessionAgree, applyGetSession, h]
  · exact userSessionAgree_processEvents st ev evs

def signUpSuccessToast : Toast :=
  { title := "Account created successfully"
    description := "Please check your email to verify your account."
    variant := none }

def signUpErrorToast (msg : String) : Toast :=
  { title := "Error signing up", description := msg, variant := some "destructive" }

def signInErrorToast (msg : String) : Toast :=
  { title := "Error signing in", description := msg, variant := some "destructive" }

def signOutErrorToast (msg : String) : Toast :=
  { title := "Error signing out", description := msg, variant := some "destructive" }

/-- The `signUp(email, password)` call (source lines 71-94): the provider is called
with the credentials and a redirect URL built from the page origin; on
provider error a destructive notification with the error message is shown
and the error is re-thrown; on success a check-your-email notification is
shown.  The provider outcome is the `err` argument. -/
def signUp (st : AuthState) (email pw origin : String)
    (err : Option ProviderError) : AuthState × Except ProviderError Unit :=
  match err with
  | some e =>
      ({ st with toasts := st.toasts ++ [signUpErrorToast e.message] }, .error e)
  | none =>
      ({ st with toasts := st.toasts ++ [signUpSuccessToast] }, .ok ())

/-- The `signIn(email, password)` call (source lines 96-108): on provider error a
destructive notification is shown and the error is re-thrown; on success no
local mutation happens (the stream updates state later). -/
def signIn (st : AuthState) (email pw : String)
    (err : Option ProviderError) : AuthState × Except ProviderError Unit :=
  match err with
  | some e =>
      ({ st with toasts := st.toasts ++ [signInErrorToast e.message] }, .error e)
  | none => (st, .ok ())

/-- The first statement of `signOut` (source line 112): set the loading
flag. -/
def signOutBegin (st : AuthState) : AuthState :=
  { st with isLoading := true }

/-- The `signOut()` call (source lines 110-134): set the loading flag, call the
provider; on success clear session and user and remove the "cart" and
"favorites" storage keys; on error show a destructive notification and
re-throw; the `finally` clause clears the loading flag in all cases. -/
def signOut (st : AuthState) (err : Option ProviderError) :
    AuthState × Except ProviderError Unit :=
  let st1 := signOutBegin st
  match err with
  | some e =>
      ({ st1 with
          toasts := st1.toasts ++ [signOutErrorToast e.message]
          isLoading := false }, .error e)
  | none =>
      ({ st1 with
          session := none
          user := none
          storage := removeItem (removeItem st1.storage "cart") "favorites"
          isLoading := false }, .ok ())

/-- C2: after `signOut` completes with the provider reporting success, the
session and user are null, the loading flag is false, and the storage keys
"cart" and "favorites" are absent, whatever the prior state. -/
theorem signOut_success_clears_state (st : AuthState) :
    (signOut st none).1.session = none ∧
    (signOut st none).1.user = none ∧
    (signOut st none).1.isLoading = false ∧
    "cart" ∉ (signOut st none).1.storage ∧
    "favorites" ∉ (signOut st none).1.storage := by
  refine ⟨rfl, rfl, rfl, ?_, ?_⟩ <;>
    simp [signOut, signOutBegin, removeItem, List.mem_filter]

/-- C3: on provider failure, each of `signUp`, `signIn` and `signOut`
appends exactly one destructive notification carrying the provider error
message and re-throws the error to the caller. -/
theorem provider_failure_notifies_and_rethrows
    (st : AuthState) (email pw origin : String) (e : ProviderError) :
    (signUp st email pw origin (some e)).1.toasts
        = st.toasts ++ [signUpErrorToast e.message] ∧
    (signUp st email pw origin (some e)).2 = .error e ∧
    (signUpErrorToast e.message).variant = some "destructive" ∧
    (signIn st email pw (some e)).1.toasts
        = st.toasts ++ [signInErrorToast e.message] ∧
    (signIn st email pw (some e)).2 = .error e ∧
    (signInErrorToast e.message).variant = some "destructive" ∧
    (signOut st (some e)).1.toasts
        = st.toasts ++ [signOutErrorToast e.message] ∧
    (signOut st (some e)).2 = .error e ∧
    (signOutErrorToast e.message).variant = some "destructive" := by
  refine ⟨rfl, rfl, rfl, rfl, rfl, rfl, ?_, rfl, rfl⟩
  simp [signOut, signOutBegin]

/-- C9: if `signOut` fails with a provider error, the mirrored session and
user and the storage keys are unchanged; only the loading flag is reset to
false (and the error notification is shown). -/
theorem signOut_failure_preserves_state (st : AuthState) (e : ProviderError) :
    (signOut st (some e)).1.session = st.session ∧
    (signOut st (some e)).1.user = st.user ∧
    (signOut st (some e)).1.storage = st.storage ∧
    (signOut st (some e)).1.isLoading = false :=
  ⟨rfl, rfl, rfl, rfl⟩

/-- C7: on every SIGNED_OUT stream event, the signed-out notification is
shown exactly when the previous local user was non-null and the event
session is null; the keys "cart" and "favorites" are removed from storage
unconditionally (and no other key is touched); and the loading flag is
cleared at the end. -/
theorem signedOut_event_behaviour (st : AuthState) (s : Option Session) :
    (handleAuthEvent st ⟨.signedOut, s⟩).toasts
        = (if s = none ∧ st.user ≠ none then st.toasts ++ [signedOutToast]
           else st.toasts) ∧
    "cart" ∉ (handleAuthEvent st ⟨.signedOut, s⟩).storage ∧
    "favorites" ∉ (handleAuthEvent st ⟨.signedOut, s⟩).storage ∧
    (handleAuthEvent st ⟨.signedOut, s⟩).storage
        = (removeItem (removeItem st.storage "cart") "favorites") ∧
    (handleAuthEvent st ⟨.signedOut, s⟩).isLoading = false := by
  refine ⟨?_, ?_, ?_, ?_, ?_⟩ <;>
    simp [handleAuthEvent, removeItem, List.mem_filter]

/-- One nested order line item row, with the columns selected by the
source query. -/
structure OrderItemRow where
  id : String
  product_id : Nat
  quantity : Nat
  price_at_purchase : Int
  created_at : Nat
deriving DecidableEq, Repr

/-- One row of the "orders" collection, with the columns selected by the
source query (timestamps as naturals). -/
structure OrderRow where
  id : String
  status : String
  created_at : Nat
  updated_at : Nat
  order_items : List OrderItemRow
deriving DecidableEq, Repr

/-- Shape of the provider query built by `getUserOrders`: target table,
selected columns, nested relation and its columns, and the order clause. -/
structure OrdersQuery where
  table : String
  selectColumns : List String
  nestedTable : String
  nestedColumns : List String
  orderColumn : String
  orderAscending : Bool
deriving DecidableEq, Repr

/-- The one fixed query built by `getUserOrders` (source lines 141-156): a
select on "orders" with nested "order_items", ordered by `created_at`
descending.  It contains no user identifier or per-user filter. -/
def ordersQuery : OrdersQuery :=
  { table := "orders"
    selectColumns := ["id", "status", "created_at", "updated_at"]
    nestedTable := "order_items"
    nestedColumns := ["id", "product_id", "quantity", "price_at_purchase", "created_at"]
    orderColumn := "created_at"
    orderAscending := false }

/-- Descending order on order rows by `created_at`. -/
def createdAtDesc (a b : OrderRow) : Prop :=
  b.created_at ≤ a.created_at

instance : DecidableRel createdAtDesc := fun a b =>
  inferInstanceAs (Decidable (b.created_at ≤ a.created_at))

instance : IsTotal OrderRow createdAtDesc :=
  ⟨fun a b => (Nat.le_total b.created_at a.created_at).elim Or.inl Or.inr⟩

instance : IsTrans OrderRow createdAtDesc :=
  ⟨fun _ _ _ h1 h2 => Nat.le_trans h2 h1⟩

/-- Ascending order on order rows by `created_at`. -/
def createdAtAsc (a b : OrderRow) : Prop :=
  a.created_at ≤ b.created_at

instance : DecidableRel createdAtAsc := fun a b =>
  inferInstanceAs (Decidable (a.created_at ≤ b.created_at))

/-- Modelled from the spec: the provider query interface over the "orders"
collection, "sortable by creation timestamp" (spec section 6) — executing a
query returns the stored rows sorted as the order clause requests. -/
def runOrdersQuery (q : OrdersQuery) (table : List OrderRow) : List OrderRow :=
  if q.orderColumn = "created_at" then
    if q.orderAscending then List.insertionSort createdAtAsc table
    else List.insertionSort createdAtDesc table
  else table

def fetchOrdersErrorToast (msg : String) : Toast :=
  { title := "Error fetching orders", description := msg, variant := some "destructive" }

/-- Outcome of one `getUserOrders` call: the state afterwards, the value
returned to the caller, the query issued to the provider (`none` when the
provider was never invoked), and the error re-signalled to the caller
(always `none`: the catch clause swallows it). -/
structure OrdersCallResult where
  st : AuthState
  result : List OrderRow
  issuedQuery : Option OrdersQuery
  raised : Option ProviderError
deriving Repr

/-- The `getUserOrders()` call (source lines 137-168): with no authenticated user,
return the empty list without touching the provider; otherwise issue the
fixed orders query — on provider error show a destructive notification and
return the empty list (the error is swallowed), on success return the
provider rows (`orders || []`). -/
def getUserOrders (st : AuthState) (table : List OrderRow)
    (err : Option ProviderError) : OrdersCallResult :=
  match st.user with
  | none => { st := st, result := [], issuedQuery := none, raised := none }
  | some _ =>
      match err with
      | some e =>
          { st := { st with toasts := st.toasts ++ [fetchOrdersErrorToast e.message] }
            result := []
            issuedQuery := some ordersQuery
            raised := none }
      | none =>
          { st := st
            result := runOrdersQuery ordersQuery table
            issuedQuery := some ordersQuery
            raised := none }

/-- C4: `getUserOrders` with no authenticated user returns the empty list,
never invokes the provider query, and leaves the state unchanged. -/
theorem getUserOrders_no_user (st : AuthState) (table : List OrderRow)
    (err : Option ProviderError) :
    (getUserOrders { st with user := none } table err).result = [] ∧
    (getUserOrders { st with user := none } table err).issuedQuery = none ∧
    (getUserOrders { st with user := none } table err).st
        = { st with user := none } :=
  ⟨rfl, rfl, rfl⟩

/-- C5: with an authenticated user, a successful `getUserOrders` call
returns the rows sorted by `created_at` descending with no notification,
and a failing call returns the empty list, shows exactly one destructive
notification, and re-signals nothing to the caller. -/
theorem getUserOrders_sorted_and_failure
    (st : AuthState) (u : User) (table : List OrderRow) (e : ProviderError) :
    List.Sorted createdAtDesc
        (getUserOrders { st with user := some u } table none).result ∧
    (getUserOrders { st with user := some u } table none).st.toasts
        = st.toasts ∧
    (getUserOrders { st with user := some u } table none).raised = none ∧
    (getUserOrders { st with user := some u } table (some e)).result = [] ∧
    (getUserOrders { st with user := some u } table (some e)).st.toasts
        = st.toasts ++ [fetchOrdersErrorToast e.message] ∧
    (fetchOrdersErrorToast e.message).variant = some "destructive" ∧
    (getUserOrders { st with user := some u } table (some e)).raised = none := by
  refine ⟨?_, rfl, rfl, rfl, rfl, rfl, rfl⟩
  simp only [getUserOrders, runOrdersQuery, ordersQuery, if_true, if_false]
  exact List.sorted_insertionSort createdAtDesc table

/-- C10: the query issued by `getUserOrders` is the same fixed,
user-independent query for any two authenticated users and any two prior
states: result scoping is delegated entirely to the provider. -/
theorem getUserOrders_query_user_independent
    (st1 st2 : AuthState) (u1 u2 : User) (t1 t2 : List OrderRow)
    (e1 e2 : Option ProviderError) :
    (getUserOrders { st1 with user := some u1 } t1 e1).issuedQuery
        = some ordersQuery ∧
    (getUserOrders { st2 with user := some u2 } t2 e2).issuedQuery
        = some ordersQuery ∧
    (getUserOrders { st1 with user := some u1 } t1 e1).issuedQuery
        = (getUserOrders { st2 with user := some u2 } t2 e2).issuedQuery := by
  cases e1 <;> cases e2 <;> exact ⟨rfl, rfl, rfl⟩

/-- One line item of a `createOrder` request, as typed in the source. -/
structure OrderItemInput where
  productId : Nat
  quantity : Nat
  price : Int
deriving DecidableEq, Repr

/-- The fabricated order identifier (source line 176):
`order_` then `Date.now()` then `_` then the random base36 suffix. -/
def orderIdString (now : Nat) (rand : String) : String :=
  "order_" ++ toString now ++ "_" ++ rand

/-- The `createOrder(items)` call (source lines 171-186): with no authenticated user
return `null`; otherwise fabricate an identifier from the clock and a
random suffix and return it after a fixed simulated delay — no provider
call and no state mutation is performed.  A hypothetical internal failure
(the catch clause) is logged and yields `null`, never re-thrown; `fail`
selects that path. -/
def createOrder (st : AuthState) (items : List OrderItemInput)
    (now : Nat) (rand : String) (fail : Bool) : AuthState × Option String :=
  match st.user with
  | none => (st, none)
  | some _ => if fail then (st, none) else (st, some (orderIdString now rand))

/-- C6: `createOrder` returns `null` with no authenticated user; with one,
it returns the fabricated string identifier, mutating no state (no real
persistence); and an internal failure yields `null` without being
re-signalled (the return type carries no error). -/
theorem createOrder_behaviour (st : AuthState) (u : User)
    (items : List OrderItemInput) (now : Nat) (rand : String) (fail : Bool) :
    createOrder { st with user := none } items now rand fail
        = ({ st with user := none }, none) ∧
    createOrder { st with user := some u } items now rand false
        = ({ st with user := some u }, some (orderIdString now rand)) ∧
    createOrder { st with user := some u } items now rand true
        = ({ st with user := some u }, none) := by
  refine ⟨?_, rfl, rfl⟩
  cases fail <;> rfl

/-- One atomic completed operation within a mount lifecycle: a delivered
stream event, the resolution of the initial session fetch, or one of the
exposed calls (each with its provider outcome as data). -/
inductive Step
  | streamEvent (ev : StreamEvent)
  | initialFetch (s : Option Session)
  | signOutCall (err : Option ProviderError)
  | signUpCall (email pw origin : String) (err : Option ProviderError)
  | signInCall (email pw : String) (err : Option ProviderError)
  | getOrdersCall (table : List OrderRow) (err : Option ProviderError)
  | createOrderCall (items : List OrderItemInput) (now : Nat) (rand : String) (fail : Bool)
deriving Repr

/-- Effect of one completed step on the local state. -/
def applyStep (st : AuthState) : Step → AuthState
  | .streamEvent ev => handleAuthEvent st ev
  | .initialFetch s => applyGetSession st s
  | .signOutCall err => (signOut st err).1
  | .signUpCall email pw origin err => (signUp st email pw origin err).1
  | .signInCall email pw err => (signIn st email pw err).1
  | .getOrdersCall table err => (getUserOrders st table err).st
  | .createOrderCall items now rand fail => (createOrder st items now rand fail).1

/-- Steps that end with the loading flag cleared: every stream event, the
initial fetch, and a sign-out call (its `finally` clause). -/
def resolvesLoading : Step → Bool
  | .streamEvent _ => true
  | .initialFetch _ => true
  | .signOutCall _ => true
  | _ => false

/-- Run a sequence of completed steps from a state. -/
def runSteps (st : AuthState) (steps : List Step) : AuthState :=
  steps.foldl applyStep st

/-- Local state at mount: no session, no user, loading flag set, no
notifications yet, whatever was already in browser storage. -/
def mountState (storage0 : List String) : AuthState :=
  { session := none, user := none, isLoading := true
    toasts := [], storage := storage0 }

theorem isLoading_applyStep (st : AuthState) (s : Step) :
    (applyStep st s).isLoading = (st.isLoading && !resolvesLoading s) := by
  cases s with
  | streamEvent ev => simp [applyStep, handleAuthEvent, resolvesLoading]
  | initialFetch s => simp [applyStep, applyGetSession, resolvesLoading]
  | signOutCall err =>
      cases err <;> simp [applyStep, signOut, signOutBegin, resolvesLoading]
  | signUpCall email pw origin err =>
      cases err <;> simp [applyStep, signUp, resolvesLoading]
  | signInCall email pw err =>
      cases err <;> simp [applyStep, signIn, resolvesLoading]
  | getOrdersCall table err =>
      cases h : st.user <;> cases err <;>
        simp [applyStep, getUserOrders, resolvesLoading, h]
  | createOrderCall items now rand fail =>
      cases h : st.user <;> cases fail <;>
        simp [applyStep, createOrder, resolvesLoading, h]

theorem isLoading_runSteps (st : AuthState) (steps : List Step) :
    (runSteps st steps).isLoading = (st.isLoading && !steps.any resolvesLoading) := by
  induction steps generalizing st with
  | nil => simp [runSteps]
  | cons s rest ih =>
      simp only [runSteps, List.foldl, List.any_cons] at *
      rw [ih (applyStep st s), isLoading_applyStep]
      cases st.isLoading <;> cases h : resolvesLoading s <;> simp

/-- C8: from mount, the loading flag stays true until the first step that
resolves it (a stream event, the initial fetch, or a sign-out) and is false
at every step boundary afterwards — so it transitions true to false exactly
once at boundaries; the one exception is inside an explicit `signOut` call,
which first sets the flag to true and always ends with it false again,
whatever the provider outcome. -/
theorem loading_flag_lifecycle (storage0 : List String) (steps : List Step)
    (st : AuthState) (err : Option ProviderError) :
    (runSteps (mountState storage0) steps).isLoading
        = !steps.any resolvesLoading ∧
    (signOutBegin st).isLoading = true ∧
    (signOut st err).1.isLoading = false := by
  refine ⟨?_, rfl, ?_⟩
  · rw [isLoading_runSteps]; rfl
  · cases err <;> rfl

end AuthBridge
